import Mathlib

/-!
Verification of `connectchain/lcel/model.py` (the LCEL model resolver).

The resolver is embedded shallowly: the stateful parts (the process
environment used as a token store, and the process-wide session map) are
passed explicitly through a `ResolverState`.  Collaborators that live in
`connectchain.utils` (the `Config` loader/indexing, `SessionMap`,
`get_token_from_env`, `wrap_llm_with_proxy`) are not part of the source
tree being verified; they are modelled from the specification, and each
such definition is marked `Modelled from the spec:` in its doc comment.
Exceptions raised by the Python code are embedded as values of
`LCELError`; the Python-level `UnboundLocalError` (an unbound local read
after a swallowed `KeyError`) has its own constructor, distinct from the
domain exception `LCELModelException`.
-/

/-- Proxy settings, an opaque record as far as the resolver is concerned. -/
structure ProxyConfig where
  host : String
  port : Nat
deriving DecidableEq, Repr

/-- One model entry of the configuration, mirroring the fields read by
`model.py`: `provider`, `type`, `model_name`, `api_base`, `api_version`,
`engine` and the optional `proxy` block.  In the YAML-backed config an
attribute may be absent (attribute access raises `KeyError`) or present
with a null value; the `proxy` field therefore is a double option:
`none` = attribute absent, `some none` = present but null,
`some (some p)` = present with value `p`. -/
structure ModelConfig where
  provider : String
  type : String
  model_name : String
  api_base : String
  api_version : String
  engine : String
  proxy : Option (Option ProxyConfig)
deriving DecidableEq, Repr

/-- The `eas` section of the global config; only `token_refresh_interval`
is read by the resolver (in `SessionMap(config.eas.token_refresh_interval)`). -/
structure EASConfig where
  token_refresh_interval : Nat
deriving DecidableEq, Repr

/-- The loaded global configuration.  `models` is `none` when the config
defines no models at all (`config.models` raises `KeyError`); otherwise it
is an association list from index to entry, where a `some none` entry is a
null entry in the config file.  `proxy` follows the same absent/null/value
convention as `ModelConfig.proxy`. -/
structure Config where
  models : Option (List (String × Option ModelConfig))
  proxy : Option (Option ProxyConfig)
  eas : EASConfig
deriving DecidableEq, Repr

/-- The extra provider-specific parameters (`model_kwargs`) passed to the
SDK constructors in `_get_chat_model_` and `_get_azure_model_`. -/
structure ModelKwargs where
  engine : String
  api_version : String
  api_type : String
deriving DecidableEq, Repr

/-- The constructed SDK client, recording exactly the constructor
arguments of `ChatOpenAI` / `AzureOpenAI` in `model.py`, plus the proxy a
wrapper may have installed on its transport (`none` until wrapped).
`kind` records which SDK class was constructed. -/
structure ClientHandle where
  kind : String
  model : String
  openai_api_key : String
  openai_api_base : String
  openai_api_version : Option String
  model_kwargs : ModelKwargs
  proxy : Option ProxyConfig
deriving DecidableEq, Repr

/-- The ways a resolution can fail.  The first three are
`LCELModelException` values raised by `model.py` with the given message;
`unboundLocalError` is the Python interpreter's error for reading a local
variable that was never assigned. -/
inductive LCELError where
  | configError : String → LCELError
  | modelNotFound : String → LCELError
  | unsupportedProvider : String → LCELError
  | unboundLocalError : String → LCELError
deriving DecidableEq, Repr

/-- A session cache entry: the cached client handle together with the
time it was issued. -/
structure SessionEntry where
  llm : ClientHandle
  issuedAt : Nat
deriving DecidableEq, Repr

/-- The mutable process state threaded through a resolution: the token
store (`os.environ`), the process-wide session map, the current time, and
an instrumentation counter of Token Issuer (`get_token_from_env`)
invocations. -/
structure ResolverState where
  env : List (String × String)
  sessions : List (String × SessionEntry)
  now : Nat
  issuerCalls : Nat
deriving DecidableEq, Repr

/-- Lookup in the token store (`os.getenv`). -/
def envGet (env : List (String × String)) (k : String) : Option String :=
  (env.find? (fun p => p.1 == k)).map (fun p => p.2)

/-- Write to the token store (`os.environ[key] = value`). -/
def envSet (env : List (String × String)) (k v : String) : List (String × String) :=
  (k, v) :: env.filter (fun p => p.1 != k)

/-- Modelled from the spec: the `Config.__getitem__` lookup used by
`models[index]` lives in `connectchain.utils`, outside the source under
verification; per the spec, the lookup by index distinguishes an absent
index (`none`) from a present-but-null entry (`some none`). -/
def lookupModels (models : List (String × Option ModelConfig)) (index : String) :
    Option (Option ModelConfig) :=
  (models.find? (fun p => p.1 == index)).map (fun p => p.2)

/-- Lookup of a session entry by key in the session map's backing store. -/
def lookupSession (sessions : List (String × SessionEntry)) (k : String) :
    Option SessionEntry :=
  (sessions.find? (fun p => p.1 == k)).map (fun p => p.2)

/-- Modelled from the spec: `SessionMap.uuid_from_config` lives in
`connectchain.utils`; the spec describes it as a pure, deterministic
fingerprint of the identity-relevant fields of the configuration pair
(provider, model name, API base, API version, engine — not secrets, not
transient fields). -/
def SessionMap.uuid_from_config (_config : Config) (mc : ModelConfig) : String :=
  mc.provider ++ "|" ++ mc.model_name ++ "|" ++ mc.api_base ++ "|" ++
    mc.api_version ++ "|" ++ mc.engine

/-- Modelled from the spec: `SessionMap.is_expired` lives in
`connectchain.utils`; per the spec it is true if no entry exists, or if
`now - entry.issuedAt >= refreshInterval`. -/
def SessionMap.is_expired (sessions : List (String × SessionEntry))
    (interval now : Nat) (k : String) : Bool :=
  match lookupSession sessions k with
  | none => true
  | some e => interval ≤ now - e.issuedAt

/-- Modelled from the spec: `SessionMap.new_session` lives in
`connectchain.utils`; per the spec it stores/replaces the entry under the
key with `issuedAt = now`. -/
def SessionMap.new_session (sessions : List (String × SessionEntry))
    (now : Nat) (k : String) (llm : ClientHandle) :
    List (String × SessionEntry) :=
  (k, { llm := llm, issuedAt := now }) :: sessions.filter (fun p => p.1 != k)

/-- Modelled from the spec: `SessionMap.get_llm` lives in
`connectchain.utils`; per the spec it returns the cached handle only,
without consulting expiry, and absence is a sentinel (`None`), not an
error. -/
def SessionMap.get_llm (sessions : List (String × SessionEntry)) (k : String) :
    Option ClientHandle :=
  (lookupSession sessions k).map (fun e => e.llm)

/-- Modelled from the spec: `wrap_llm_with_proxy` lives in
`connectchain.utils.llm_proxy_wrapper`; per the spec it mutates/replaces
the handle's transport so subsequent calls route through the proxy. -/
def wrap_llm_with_proxy (llm : ClientHandle) (p : ProxyConfig) : ClientHandle :=
  { llm with proxy := some p }

/-- `_get_chat_model_` from `model.py`: constructs a `ChatOpenAI` client
with the model name, key, API base, and `model_kwargs` holding engine,
API version and the fixed "azure" API type. -/
def _get_chat_model_ (auth_token : String) (model_config : ModelConfig) : ClientHandle :=
  { kind := "ChatOpenAI"
    model := model_config.model_name
    openai_api_key := auth_token
    openai_api_base := model_config.api_base
    openai_api_version := none
    model_kwargs :=
      { engine := model_config.engine
        api_version := model_config.api_version
        api_type := "azure" }
    proxy := none }

/-- `_get_azure_model_` from `model.py`: constructs an `AzureOpenAI`
client with the model name, key, API base, top-level API version, and
`model_kwargs` holding engine, API version and the fixed "azure" API
type. -/
def _get_azure_model_ (auth_token : String) (model_config : ModelConfig) : ClientHandle :=
  { kind := "AzureOpenAI"
    model := model_config.model_name
    openai_api_key := auth_token
    openai_api_base := model_config.api_base
    openai_api_version := some model_config.api_version
    model_kwargs :=
      { engine := model_config.engine
        api_version := model_config.api_version
        api_type := "azure" }
    proxy := none }

/-- `_get_openai_model_` from `model.py`.  The external Token Issuer
(`get_token_from_env`, from `connectchain.utils`, outside the verified
source) is passed as the function `issueToken`; each invocation bumps the
instrumentation counter `issuerCalls`.  On a missing raw token or an
expired entry it issues a token, publishes it to the token store, builds
the chat or completion client by `model_config.type`, records the new
session, and returns the fresh handle; otherwise it returns the cached
handle from the session map. -/
def _get_openai_model_ (issueToken : String → String) (index : String)
    (config : Config) (model_config : ModelConfig) (st : ResolverState) :
    Option ClientHandle × ResolverState :=
  let model_session_key := SessionMap.uuid_from_config config model_config
  let auth_token := envGet st.env model_session_key
  let interval := config.eas.token_refresh_interval
  if auth_token.isNone || SessionMap.is_expired st.sessions interval st.now model_session_key then
    let tok := issueToken index
    let llm :=
      if model_config.type = "chat" then _get_chat_model_ tok model_config
      else _get_azure_model_ tok model_config
    (some llm,
      { env := envSet st.env model_session_key tok
        sessions := SessionMap.new_session st.sessions st.now model_session_key llm
        now := st.now
        issuerCalls := st.issuerCalls + 1 })
  else
    (SessionMap.get_llm st.sessions model_session_key, st)

/-- The tail of `_get_model_` from the `if model_instance is None` check
onward (lines 49–65 of `model.py`): raise "Not implemented" on a null
instance, then run the proxy chain.  Note the faithful rendering of the
Python local-variable semantics: when `model_config.proxy` raises
`KeyError` (attribute absent), the `except` swallows it but `proxy_config`
was never assigned, so the following `if proxy_config is None` read
raises `UnboundLocalError`. -/
def _finish_model_ (config : Config) (model_config : ModelConfig)
    (model_instance : Option ClientHandle) (st : ResolverState) :
    Except LCELError ClientHandle × ResolverState :=
  match model_instance with
  | none => (.error (.unsupportedProvider "Not implemented"), st)
  | some llm =>
    match model_config.proxy with
    | none =>
      (.error (.unboundLocalError
        "cannot access local variable proxy_config where it is not associated with a value"), st)
    | some mpc =>
      let proxy_config : Option ProxyConfig :=
        match mpc with
        | some p => some p
        | none =>
          match config.proxy with
          | none => none
          | some gp => gp
      match proxy_config with
      | none => (.ok llm, st)
      | some p => (.ok (wrap_llm_with_proxy llm p), st)

/-- `_get_model_` from `model.py`: config load, model lookup, provider
dispatch, then `_finish_model_`.  The loaded `config` is a parameter
(standing for `Config.from_env()`); a missing `models` section is the
"No models defined in config" exception; an absent index or null entry is
the model-not-found exception (the absent-index half goes through the
spec-modelled `lookupModels`). -/
def _get_model_ (issueToken : String → String) (index : String)
    (config : Config) (st : ResolverState) :
    Except LCELError ClientHandle × ResolverState :=
  match config.models with
  | none => (.error (.configError "No models defined in config"), st)
  | some models =>
    match lookupModels models index with
    | none =>
      (.error (.modelNotFound ("Model config at index \"" ++ index ++ "\" is not defined")), st)
    | some none =>
      (.error (.modelNotFound ("Model config at index \"" ++ index ++ "\" is not defined")), st)
    | some (some model_config) =>
      let r :=
        if model_config.provider = "openai" then
          _get_openai_model_ issueToken index config model_config st
        else (none, st)
      _finish_model_ config model_config r.1 r.2

/-- `model` from `model.py`, the public entry point (`resolve`). -/
def model (issueToken : String → String) (index : String)
    (config : Config) (st : ResolverState) :
    Except LCELError ClientHandle × ResolverState :=
  _get_model_ issueToken index config st

/-! ### Concrete fixtures used by witnesses and counterexample evaluations -/

/-- A concrete Token Issuer standing in for `get_token_from_env`. -/
def tokFun : String → String := fun idx => "TOKEN-" ++ idx

/-- A chat model entry whose `proxy` attribute is present but null. -/
def mcChat : ModelConfig :=
  { provider := "openai", type := "chat", model_name := "gpt-4",
    api_base := "https://api.example.com", api_version := "2023-05-15",
    engine := "gpt4-engine", proxy := some none }

/-- A global config holding `mcChat` at index "1", no global proxy. -/
def cfgBase : Config :=
  { models := some [("1", some mcChat)], proxy := none,
    eas := { token_refresh_interval := 3600 } }

/-- The empty starting state: no tokens issued, no sessions. -/
def stEmpty : ResolverState := { env := [], sessions := [], now := 0, issuerCalls := 0 }

/-- The session key of `(cfgBase, mcChat)`. -/
def keyChat : String := SessionMap.uuid_from_config cfgBase mcChat

/-- A handle cached from an earlier resolution. -/
def handleCached : ClientHandle := _get_chat_model_ "OLDTOKEN" mcChat

/-- A state in which the raw token is present and the cached session for
`keyChat` is fresh (issued at 100, now 150, interval 3600). -/
def stHit : ResolverState :=
  { env := [(keyChat, "OLDTOKEN")],
    sessions := [(keyChat, { llm := handleCached, issuedAt := 100 })],
    now := 150, issuerCalls := 0 }

/-! ### Claim theorems -/

/-- Claim C7: with no models defined at all, the resolution fails with the
"No models defined in config" error, and the state is returned untouched —
no lookup, token issuance or client construction has happened. -/
theorem C7_no_models_yields_config_error (issueToken : String → String)
    (index : String) (config : Config) (st : ResolverState)
    (hm : config.models = none) :
    _get_model_ issueToken index config st =
      (.error (.configError "No models defined in config"), st) := by
  unfold _get_model_
  rw [hm]

/-- Claim C7 witness: the error at a concrete empty config. -/
theorem C7_witness :
    ({ models := none, proxy := none, eas := { token_refresh_interval := 3600 } } : Config).models
        = none ∧
    _get_model_ tokFun "1"
        { models := none, proxy := none, eas := { token_refresh_interval := 3600 } } stEmpty =
      (.error (.configError "No models defined in config"), stEmpty) :=
  ⟨rfl, C7_no_models_yields_config_error tokFun "1"
    { models := none, proxy := none, eas := { token_refresh_interval := 3600 } } stEmpty rfl⟩

/-- Claim C1: when the index is absent from the models, or maps to a null
entry, the resolution fails with exactly the model-not-found error (no
other failure kind), leaving the state untouched. -/
theorem C1_bad_index_yields_model_not_found (issueToken : String → String)
    (index : String) (config : Config) (st : ResolverState)
    (models : List (String × Option ModelConfig))
    (hm : config.models = some models)
    (h : lookupModels models index = none ∨ lookupModels models index = some none) :
    ∃ msg, _get_model_ issueToken index config st = (.error (.modelNotFound msg), st) := by
  rcases h with h | h <;> simp only [_get_model_, hm, h] <;> exact ⟨_, rfl⟩

/-- Claim C1 witness: index "2" is absent from `cfgBase`. -/
theorem C1_witness :
    cfgBase.models = some [("1", some mcChat)] ∧
    lookupModels [("1", some mcChat)] "2" = none ∧
    ∃ msg, _get_model_ tokFun "2" cfgBase stEmpty = (.error (.modelNotFound msg), stEmpty) :=
  ⟨rfl, by decide,
   C1_bad_index_yields_model_not_found tokFun "2" cfgBase stEmpty [("1", some mcChat)]
     rfl (Or.inl (by decide))⟩

/-- A model entry whose `proxy` attribute is absent altogether (the
`model_config.proxy` attribute read raises `KeyError`). -/
def mcNoProxy : ModelConfig :=
  { provider := "openai", type := "chat", model_name := "gpt-4",
    api_base := "https://api.example.com", api_version := "2023-05-15",
    engine := "gpt4-engine", proxy := none }

/-- A global config with `mcNoProxy` at index "1" and no global proxy
either: proxy settings are absent at both scopes. -/
def cfgNoProxy : Config :=
  { models := some [("1", some mcNoProxy)], proxy := none,
    eas := { token_refresh_interval := 3600 } }

/-- Claim C2: evaluation showing the claim fails on the code.  With proxy
settings absent at both scopes, the resolution does NOT return the
unwrapped handle: after `except KeyError: pass` swallows the absent
`model_config.proxy` attribute, the local `proxy_config` was never
assigned, so the `if proxy_config is None` read raises
`UnboundLocalError`. -/
theorem C2_proxy_absent_at_both_scopes_crashes :
    mcNoProxy.proxy = none ∧ cfgNoProxy.proxy = none ∧
    (_get_model_ tokFun "1" cfgNoProxy stEmpty).1 =
      .error (.unboundLocalError
        "cannot access local variable proxy_config where it is not associated with a value") :=
  ⟨rfl, rfl, rfl⟩

/-- Claim C6: a provider other than "openai" makes the resolution fail
with the "Not implemented" error; and independently, a null result from
the provider dispatch makes the tail of the resolver fail with the same
"Not implemented" error. -/
theorem C6_unsupported_provider (issueToken : String → String)
    (index : String) (config : Config) (st : ResolverState)
    (models : List (String × Option ModelConfig)) (mc : ModelConfig)
    (hm : config.models = some models)
    (hl : lookupModels models index = some (some mc))
    (hprov : ¬ mc.provider = "openai") :
    _get_model_ issueToken index config st =
      (.error (.unsupportedProvider "Not implemented"), st) ∧
    ∀ (cfg : Config) (m : ModelConfig) (s : ResolverState),
      _finish_model_ cfg m none s =
        (.error (.unsupportedProvider "Not implemented"), s) := by
  constructor
  · simp only [_get_model_, hm, hl, if_neg hprov]
    rfl
  · intro cfg m s
    rfl

/-- A model entry with an unsupported provider. -/
def mcAnthropic : ModelConfig :=
  { provider := "anthropic", type := "chat", model_name := "claude",
    api_base := "https://api.example.com", api_version := "2023-05-15",
    engine := "claude-engine", proxy := some none }

/-- A global config holding `mcAnthropic` at index "1". -/
def cfgAnthro : Config :=
  { models := some [("1", some mcAnthropic)], proxy := none,
    eas := { token_refresh_interval := 3600 } }

/-- Claim C6 witness: provider "anthropic" at a concrete config, and a
null dispatch result at concrete arguments. -/
theorem C6_witness :
    (¬ mcAnthropic.provider = "openai") ∧
    _get_model_ tokFun "1" cfgAnthro stEmpty =
      (.error (.unsupportedProvider "Not implemented"), stEmpty) ∧
    _finish_model_ cfgAnthro mcAnthropic none stEmpty =
      (.error (.unsupportedProvider "Not implemented"), stEmpty) :=
  ⟨by decide,
   (C6_unsupported_provider tokFun "1" cfgAnthro stEmpty [("1", some mcAnthropic)]
     mcAnthropic rfl (by decide) (by decide)).1,
   (C6_unsupported_provider tokFun "1" cfgAnthro stEmpty [("1", some mcAnthropic)]
     mcAnthropic rfl (by decide) (by decide)).2 cfgAnthro mcAnthropic stEmpty⟩

/-- Claim C9: the fingerprint is a function of the identity-relevant
configuration content only — any two invocations on configurations with
equal provider, model name, API base, API version and engine produce the
identical session key, so repeated resolutions of the same index reuse
the same token-store key. -/
theorem C9_fingerprint_deterministic (g g' : Config) (m m' : ModelConfig)
    (h1 : m.provider = m'.provider) (h2 : m.model_name = m'.model_name)
    (h3 : m.api_base = m'.api_base) (h4 : m.api_version = m'.api_version)
    (h5 : m.engine = m'.engine) :
    SessionMap.uuid_from_config g m = SessionMap.uuid_from_config g' m' := by
  unfold SessionMap.uuid_from_config
  rw [h1, h2, h3, h4, h5]

/-- Claim C9 witness: two invocations (under distinct global configs even)
on the same model content give the identical key. -/
theorem C9_witness :
    mcChat.provider = mcChat.provider ∧
    SessionMap.uuid_from_config cfgBase mcChat =
      SessionMap.uuid_from_config cfgNoProxy mcChat :=
  ⟨rfl, C9_fingerprint_deterministic cfgBase cfgNoProxy mcChat mcChat rfl rfl rfl rfl rfl⟩

/-- On a present raw token and a fresh entry, `_get_openai_model_` takes
the cached-handle branch: no token issuance, no construction, no state
change. -/
theorem get_openai_model_hit (issueToken : String → String) (index : String)
    (config : Config) (mc : ModelConfig) (st : ResolverState) (tok : String)
    (htok : envGet st.env (SessionMap.uuid_from_config config mc) = some tok)
    (hfresh : SessionMap.is_expired st.sessions config.eas.token_refresh_interval st.now
      (SessionMap.uuid_from_config config mc) = false) :
    _get_openai_model_ issueToken index config mc st =
      (SessionMap.get_llm st.sessions (SessionMap.uuid_from_config config mc), st) := by
  simp only [_get_openai_model_, htok, hfresh, Option.isNone_some, Bool.or_self,
    Bool.false_eq_true, if_false]

/-- The state left by a first resolution of index "1" against
`cfgNoProxy` from the empty state: that call published the raw token and
cached the freshly built handle before crashing in the proxy chain. -/
def stAfterCrash : ResolverState := (_get_model_ tokFun "1" cfgNoProxy stEmpty).2

/-- The handle that first resolution cached. -/
def handleCachedNP : ClientHandle := _get_chat_model_ (tokFun "1") mcNoProxy

/-- `stAfterCrash` 150 seconds later: the raw token is present and the
cached entry is fresh (150 < 3600), a genuine, reachable cache-hit
state. -/
def stHitNP : ResolverState := { stAfterCrash with now := 150 }

/-- Claim C3: evaluation showing the claim fails on the code.  At the
reachable cache-hit state `stHitNP` (raw token present, cached entry
fresh) for a model entry whose `proxy` attribute is absent, the resolver
indeed skips the Token Issuer and builds no new client — the state comes
back untouched — but it never returns the cached handle: it raises
`UnboundLocalError` in the proxy chain instead. -/
theorem C3_hit_path_crashes_without_proxy_attribute :
    mcNoProxy.proxy = none ∧
    envGet stHitNP.env (SessionMap.uuid_from_config cfgNoProxy mcNoProxy) =
      some (tokFun "1") ∧
    SessionMap.is_expired stHitNP.sessions cfgNoProxy.eas.token_refresh_interval stHitNP.now
      (SessionMap.uuid_from_config cfgNoProxy mcNoProxy) = false ∧
    SessionMap.get_llm stHitNP.sessions (SessionMap.uuid_from_config cfgNoProxy mcNoProxy) =
      some handleCachedNP ∧
    _get_model_ tokFun "1" cfgNoProxy stHitNP =
      (.error (.unboundLocalError
        "cannot access local variable proxy_config where it is not associated with a value"),
       stHitNP) :=
  ⟨rfl, by decide, by decide, by decide, rfl⟩

/-- Claim C10: on the cache-hit path (raw token present, entry fresh) the
resolver state is returned entirely unchanged — no key is written or
overwritten in the token store or the session map. -/
theorem C10_cache_hit_is_effect_free (issueToken : String → String) (index : String)
    (config : Config) (mc : ModelConfig) (st : ResolverState) (tok : String)
    (htok : envGet st.env (SessionMap.uuid_from_config config mc) = some tok)
    (hfresh : SessionMap.is_expired st.sessions config.eas.token_refresh_interval st.now
      (SessionMap.uuid_from_config config mc) = false) :
    (_get_openai_model_ issueToken index config mc st).2 = st := by
  rw [get_openai_model_hit issueToken index config mc st tok htok hfresh]

/-- Claim C10 witness: at the fixture hit state `stHit` the state after
the call equals the state before. -/
theorem C10_witness :
    envGet stHit.env (SessionMap.uuid_from_config cfgBase mcChat) = some "OLDTOKEN" ∧
    (_get_openai_model_ tokFun "1" cfgBase mcChat stHit).2 = stHit :=
  ⟨by decide,
   C10_cache_hit_is_effect_free tokFun "1" cfgBase mcChat stHit "OLDTOKEN"
     (by decide) (by decide)⟩

/-- The fingerprint reads no field of the global config in this modelling
(the spec lists only model-level identity fields as inputs). -/
theorem uuid_from_config_global_irrel (g g' : Config) (m : ModelConfig) :
    SessionMap.uuid_from_config g m = SessionMap.uuid_from_config g' m := rfl

/-- Claim C5: a non-null model-scoped proxy is the one applied to the
handle — the resolution wraps with it no matter what the global proxy
setting is — and the global-scoped proxy setting is never consulted in
that case: the outcome is invariant under any change of the global proxy
setting. -/
theorem C5_model_proxy_takes_precedence (issueToken : String → String)
    (index : String) (config : Config) (st : ResolverState)
    (models : List (String × Option ModelConfig)) (mc : ModelConfig) (p : ProxyConfig)
    (hm : config.models = some models)
    (hl : lookupModels models index = some (some mc))
    (hprov : mc.provider = "openai")
    (hpx : mc.proxy = some (some p)) :
    (∀ llm st1, _get_openai_model_ issueToken index config mc st = (some llm, st1) →
      _get_model_ issueToken index config st = (.ok (wrap_llm_with_proxy llm p), st1)) ∧
    (∀ config2 : Config, config2.models = config.models → config2.eas = config.eas →
      _get_model_ issueToken index config2 st = _get_model_ issueToken index config st) := by
  constructor
  · intro llm st1 hrun
    simp only [_get_model_, hm, hl, if_pos hprov, hrun]
    simp only [_finish_model_, hpx]
  · intro config2 h1 h2
    have hm2 : config2.models = some models := h1.trans hm
    have hoai2 : _get_openai_model_ issueToken index config2 mc st =
        _get_openai_model_ issueToken index config mc st := by
      simp only [_get_openai_model_, h2]
      rw [uuid_from_config_global_irrel config2 config mc]
    simp only [_get_model_, hm, hm2, hl, if_pos hprov, hoai2]
    cases hinst : (_get_openai_model_ issueToken index config mc st).1 with
    | none => rfl
    | some llm => simp only [_finish_model_, hpx]

/-- A model-scoped proxy. -/
def pModel : ProxyConfig := { host := "model-proxy.example.com", port := 8080 }

/-- A different, global-scoped proxy. -/
def pGlobal : ProxyConfig := { host := "global-proxy.example.com", port := 9090 }

/-- A chat model entry declaring its own proxy `pModel`. -/
def mcProxied : ModelConfig :=
  { provider := "openai", type := "chat", model_name := "gpt-4",
    api_base := "https://api.example.com", api_version := "2023-05-15",
    engine := "gpt4-engine", proxy := some (some pModel) }

/-- A global config declaring a different global proxy `pGlobal` and
holding `mcProxied` at index "1". -/
def cfgTwoProxy : Config :=
  { models := some [("1", some mcProxied)], proxy := some (some pGlobal),
    eas := { token_refresh_interval := 3600 } }

/-- The handle freshly built on the first resolution against
`cfgTwoProxy`. -/
def llmC5 : ClientHandle := _get_chat_model_ (tokFun "1") mcProxied

/-- The state after that first resolution's provider dispatch. -/
def stC5 : ResolverState := (_get_openai_model_ tokFun "1" cfgTwoProxy mcProxied stEmpty).2

/-- Claim C5 witness: with both proxies present and different, the handle
comes back wrapped with the model-scoped proxy. -/
theorem C5_witness :
    mcProxied.proxy = some (some pModel) ∧
    cfgTwoProxy.proxy = some (some pGlobal) ∧
    pModel ≠ pGlobal ∧
    _get_model_ tokFun "1" cfgTwoProxy stEmpty =
      (.ok (wrap_llm_with_proxy llmC5 pModel), stC5) :=
  ⟨rfl, rfl, by decide,
   (C5_model_proxy_takes_precedence tokFun "1" cfgTwoProxy stEmpty [("1", some mcProxied)]
     mcProxied pModel rfl (by decide) rfl rfl).1 llmC5 stC5 rfl⟩

/-- Claim C8: on the refresh path the chat builder is chosen exactly when
`type` is "chat", otherwise the completion builder; and both builders pass
the model name, API base, API version and engine from the model config
together with the fixed "azure" API-type marker in `model_kwargs`. -/
theorem C8_builder_dispatch_and_parameters (issueToken : String → String) (index : String)
    (config : Config) (mc : ModelConfig) (st : ResolverState)
    (hmiss : envGet st.env (SessionMap.uuid_from_config config mc) = none ∨
      SessionMap.is_expired st.sessions config.eas.token_refresh_interval st.now
        (SessionMap.uuid_from_config config mc) = true) :
    (_get_openai_model_ issueToken index config mc st).1 =
      some (if mc.type = "chat" then _get_chat_model_ (issueToken index) mc
            else _get_azure_model_ (issueToken index) mc) ∧
    (∀ tok (m : ModelConfig),
      (_get_chat_model_ tok m).model = m.model_name ∧
      (_get_chat_model_ tok m).openai_api_base = m.api_base ∧
      (_get_chat_model_ tok m).model_kwargs =
        { engine := m.engine, api_version := m.api_version, api_type := "azure" } ∧
      (_get_azure_model_ tok m).model = m.model_name ∧
      (_get_azure_model_ tok m).openai_api_base = m.api_base ∧
      (_get_azure_model_ tok m).openai_api_version = some m.api_version ∧
      (_get_azure_model_ tok m).model_kwargs =
        { engine := m.engine, api_version := m.api_version, api_type := "azure" }) := by
  constructor
  · rcases hmiss with h | h
    · simp [_get_openai_model_, h]
    · simp [_get_openai_model_, h]
  · intro tok m
    exact ⟨rfl, rfl, rfl, rfl, rfl, rfl, rfl⟩

/-- Claim C8 witness: the dispatch and the kwargs at the concrete chat
fixture, starting from the empty state (a miss). -/
theorem C8_witness :
    envGet stEmpty.env (SessionMap.uuid_from_config cfgBase mcChat) = none ∧
    (_get_openai_model_ tokFun "1" cfgBase mcChat stEmpty).1 =
      some (if mcChat.type = "chat" then _get_chat_model_ (tokFun "1") mcChat
            else _get_azure_model_ (tokFun "1") mcChat) ∧
    (_get_chat_model_ (tokFun "1") mcChat).model_kwargs =
      { engine := mcChat.engine, api_version := mcChat.api_version, api_type := "azure" } :=
  ⟨rfl,
   (C8_builder_dispatch_and_parameters tokFun "1" cfgBase mcChat stEmpty (Or.inl rfl)).1,
   (((C8_builder_dispatch_and_parameters tokFun "1" cfgBase mcChat stEmpty
     (Or.inl rfl)).2 (tokFun "1") mcChat).2.2).1⟩

/-- A config whose model entry lacks the `proxy` attribute while the
global config does declare a proxy of its own. -/
def cfgGlobalOnlyProxy : Config :=
  { models := some [("1", some mcNoProxy)], proxy := some (some pGlobal),
    eas := { token_refresh_interval := 3600 } }

/-- Claim C4: evaluation showing the claim fails on the code.  On a cache
miss (no raw token yet) for a model entry whose `proxy` attribute is
absent, the resolver does invoke the Token Issuer exactly once, publishes
the fresh token to the token store under the session key and caches the
freshly built chat handle — but it does not return that handle: the proxy
chain then raises `UnboundLocalError` (even though a global proxy is
configured, which is never reached). -/
theorem C4_miss_pipeline_crashes_before_returning :
    envGet stEmpty.env (SessionMap.uuid_from_config cfgGlobalOnlyProxy mcNoProxy) = none ∧
    (_get_model_ tokFun "1" cfgGlobalOnlyProxy stEmpty).2.issuerCalls = 1 ∧
    envGet (_get_model_ tokFun "1" cfgGlobalOnlyProxy stEmpty).2.env
      (SessionMap.uuid_from_config cfgGlobalOnlyProxy mcNoProxy) = some (tokFun "1") ∧
    SessionMap.get_llm (_get_model_ tokFun "1" cfgGlobalOnlyProxy stEmpty).2.sessions
      (SessionMap.uuid_from_config cfgGlobalOnlyProxy mcNoProxy) =
      some (_get_chat_model_ (tokFun "1") mcNoProxy) ∧
    (_get_model_ tokFun "1" cfgGlobalOnlyProxy stEmpty).1 =
      .error (.unboundLocalError
        "cannot access local variable proxy_config where it is not associated with a value") :=
  ⟨rfl, by decide, by decide, by decide, rfl⟩
